import Mathlib

/-!
Shallow embedding of the orchestration core of the `auto-run-api` repository
(an MCP tool server for a coworking-space CRM).  The Python sources embedded
here are `src/mcp-server/tools/quote_tools.py`, `src/mcp-server/tools/line_tools.py`
and `src/mcp-server/main.py`.

Modelling conventions:
* money amounts (Python floats) are rationals `ℚ`; Python `round` (half to even)
  is `pyRound`;
* calendar dates and timestamps (ISO strings in the source) are integer day
  ordinals / clock values, so `date + timedelta(days = n)` is `+ n`;
* PostgREST is modelled as an in-memory list of records: `GET ...?id=eq.x` is
  `List.find?`, `PATCH` maps over all matching rows, `DELETE` filters them out,
  `POST` appends; each stateful operation also returns the list of write
  operations it issued;
* the LINE messaging gateway (`send_line_push`, including its token check and
  HTTP call) is abstracted as a parameter `gw : address → text → PushResult`
  returning a typed success/failure, matching the spec's MessagingGateway
  contract;
* Python truthiness of optional values (`if x:` / `x or y`) is made explicit by
  the `optStrTruthy` / `optIntTruthy` / `optRatTruthy` / `pyOrStr` helpers.
-/

set_option allowUnsafeReducibility true

attribute [semireducible] Rat.add Rat.sub Rat.mul Rat.inv

/-- Python truthiness of an optional string: `None` and `""` are falsy. -/
def optStrTruthy : Option String → Bool
  | none => false
  | some s => !(s = "")

/-- Python truthiness of an optional integer: `None` and `0` are falsy. -/
def optIntTruthy : Option Int → Bool
  | none => false
  | some n => !(n = 0)

/-- Python truthiness of an optional float: `None` and `0.0` are falsy. -/
def optRatTruthy : Option ℚ → Bool
  | none => false
  | some q => !(q = 0)

/-- Python `a or b` on optional strings: yields `a` when truthy, else `b`. -/
def pyOrStr (a b : Option String) : Option String :=
  if optStrTruthy a then a else b

/-- Python `round` with no digits: round half to even, exact over `ℚ`. -/
def pyRound (q : ℚ) : ℤ :=
  let f : ℤ := q.num.fdiv q.den
  let r : ℚ := q - (f : ℚ)
  if r < 1/2 then f
  else if 1/2 < r then f + 1
  else if f % 2 = 0 then f else f + 1

/-- Insert a thousands separator after every three characters of a reversed
digit list (the digit-grouping step of Python format spec `:,.0f`). -/
def groupThousandsRev : List Char → List Char
  | a :: b :: c :: d :: rest => a :: b :: c :: ',' :: groupThousandsRev (d :: rest)
  | l => l

/-- Python `f"{x:,.0f}"`: round to an integer, render with comma grouping. -/
def pyMoneyFormat (q : ℚ) : String :=
  let n := pyRound q
  let s := toString n.natAbs
  let grouped := String.mk ((groupThousandsRev s.data.reverse).reverse)
  (if n < 0 then "-" else "") ++ grouped

/-- One element of a quote's `items` JSON array; every key is read with
`dict.get`, so each field is optional. -/
structure QuoteItem where
  name : Option String := none
  quantity : Option ℚ := none
  unit_price : Option ℚ := none
  amount : Option ℚ := none
deriving Repr, DecidableEq

/-- `item.get("amount", 0)` from `create_quote` / `update_quote`. -/
def itemAmount (it : QuoteItem) : ℚ := it.amount.getD 0

/-- `sum(item.get("amount", 0) for item in items)`. -/
def itemsSubtotal (items : List QuoteItem) : ℚ := (items.map itemAmount).sum

/-- A row of the `quotes` table / `v_quotes` view, restricted to the columns
the embedded operations read or write. -/
structure Quote where
  id : Int
  branch_id : Int
  quote_number : Option String := none
  customer_name : Option String := none
  customer_phone : Option String := none
  customer_email : Option String := none
  company_name : Option String := none
  contract_type : String := "virtual_office"
  plan_name : Option String := none
  contract_months : Int := 12
  proposed_start_date : Option Int := none
  items : List QuoteItem := []
  subtotal : ℚ := 0
  discount_amount : ℚ := 0
  total_amount : ℚ := 0
  deposit_amount : ℚ := 0
  valid_from : Int := 0
  valid_until : Int := 0
  status : String := "draft"
  converted_contract_id : Option Int := none
  sent_at : Option Int := none
  viewed_at : Option Int := none
  responded_at : Option Int := none
  converted_at : Option Int := none
  internal_notes : Option String := none
deriving Repr, DecidableEq

/-- The record `create_quote` inserts into the `quotes` table (the keys set
unconditionally at lines 211-223 of quote_tools.py). -/
structure NewQuoteData where
  branch_id : Int
  contract_type : String
  contract_months : Int
  items : List QuoteItem
  subtotal : ℚ
  discount_amount : ℚ
  total_amount : ℚ
  deposit_amount : ℚ
  valid_from : Int
  valid_until : Int
  status : String
deriving Repr, DecidableEq

/-- `create_quote` (quote_tools.py lines 160-259): computes `subtotal` and
`total_amount` from the items and discount and composes the insert record.
`items = items or []` and `discount_amount or 0` / `deposit_amount or 0`
become `Option.getD` (a falsy empty list / zero maps to the same default). -/
def create_quote (branch_id : Int) (contract_type : String) (contract_months : Int)
    (items : Option (List QuoteItem)) (discount_amount : Option ℚ)
    (deposit_amount : Option ℚ) (valid_days : Int) (today : Int) : NewQuoteData :=
  let its := items.getD []
  let subtotal := itemsSubtotal its
  let total_amount := subtotal - discount_amount.getD 0
  { branch_id := branch_id
    contract_type := contract_type
    contract_months := contract_months
    items := its
    subtotal := subtotal
    discount_amount := discount_amount.getD 0
    total_amount := total_amount
    deposit_amount := deposit_amount.getD 0
    valid_from := today
    valid_until := today + valid_days
    status := "draft" }

/-- The allow-listed projection of the field map handed to `update_quote`:
a `some` field means the caller supplied that key.  Keys outside the
allow-list are dropped by the code before any use, so they do not appear. -/
structure QuoteUpdates where
  customer_name : Option String := none
  contract_months : Option Int := none
  items : Option (List QuoteItem) := none
  subtotal : Option ℚ := none
  discount_amount : Option ℚ := none
  total_amount : Option ℚ := none
  status : Option String := none
  internal_notes : Option String := none
deriving Repr, DecidableEq

/-- `if not filtered_updates:` — the filtered field map is empty. -/
def QuoteUpdates.isEmpty (u : QuoteUpdates) : Bool :=
  u.customer_name.isNone && u.contract_months.isNone && u.items.isNone &&
  u.subtotal.isNone && u.discount_amount.isNone && u.total_amount.isNone &&
  u.status.isNone && u.internal_notes.isNone

/-- The keys of the filtered update map (fixed field order). -/
def QuoteUpdates.fieldNames (u : QuoteUpdates) : List String :=
  (if u.customer_name.isSome then ["customer_name"] else []) ++
  (if u.contract_months.isSome then ["contract_months"] else []) ++
  (if u.items.isSome then ["items"] else []) ++
  (if u.subtotal.isSome then ["subtotal"] else []) ++
  (if u.discount_amount.isSome then ["discount_amount"] else []) ++
  (if u.total_amount.isSome then ["total_amount"] else []) ++
  (if u.status.isSome then ["status"] else []) ++
  (if u.internal_notes.isSome then ["internal_notes"] else [])

/-- Lines 292-299 of quote_tools.py: if `items` is among the updated fields,
overwrite `subtotal` and `total_amount` in the field map, the discount being
`filtered_updates.get("discount_amount", 0)` — the *supplied* discount, with
default `0` (not the stored quote's discount). -/
def recomputeTotals (u : QuoteUpdates) : QuoteUpdates :=
  match u.items with
  | some its =>
      { u with
        subtotal := some (itemsSubtotal its)
        total_amount := some (itemsSubtotal its - u.discount_amount.getD 0) }
  | none => u

/-- PostgREST `PATCH` semantics on one row: set exactly the supplied fields. -/
def applyQuotePatch (q : Quote) (u : QuoteUpdates) : Quote :=
  { q with
    customer_name := match u.customer_name with | some v => some v | none => q.customer_name
    contract_months := u.contract_months.getD q.contract_months
    items := u.items.getD q.items
    subtotal := u.subtotal.getD q.subtotal
    discount_amount := u.discount_amount.getD q.discount_amount
    total_amount := u.total_amount.getD q.total_amount
    status := u.status.getD q.status
    internal_notes := match u.internal_notes with | some v => some v | none => q.internal_notes }

/-- Result of `update_quote`: `ValueError` for an empty field map, the
not-found envelope, or success with the updated row. -/
inductive UpdateOutcome where
  | noValidFields
  | notFound
  | ok (updated_fields : List String) (quote : Quote)
deriving Repr, DecidableEq

/-- The updated row carried by a successful `UpdateOutcome`. -/
def UpdateOutcome.quoteOf : UpdateOutcome → Option Quote
  | .ok _ q => some q
  | _ => none

/-- `update_quote` (quote_tools.py lines 262-321): rejects an empty filtered
field map, recomputes totals when `items` is supplied, then patches every row
whose `id` matches and returns the first patched row. -/
def update_quote (store : List Quote) (quote_id : Int) (u : QuoteUpdates) :
    UpdateOutcome × List Quote :=
  if u.isEmpty then (.noValidFields, store)
  else
    let u' := recomputeTotals u
    match store.filter (fun r => r.id == quote_id) with
    | [] => (.notFound, store)
    | q :: _ =>
        (.ok u'.fieldNames (applyQuotePatch q u'),
         store.map (fun r => if r.id == quote_id then applyQuotePatch r u' else r))

/-- The status values `update_quote_status` accepts (quote_tools.py line 340). -/
def validQuoteStatuses : List String :=
  ["draft", "sent", "viewed", "accepted", "rejected", "expired", "converted"]

/-- The patch `update_quote_status` applies to a row: the new status, the
status-keyed timestamp, and the notes when truthy (lines 344-355). -/
def statusPatch (q : Quote) (status : String) (notes : Option String) (now : Int) : Quote :=
  { q with
    status := status
    sent_at := if status = "sent" then some now else q.sent_at
    viewed_at := if status = "viewed" then some now else q.viewed_at
    responded_at := if status = "accepted" ∨ status = "rejected" then some now else q.responded_at
    internal_notes := if optStrTruthy notes then notes else q.internal_notes }

/-- Result of `update_quote_status` once validation has passed. -/
inductive StatusOutcome where
  | notFound
  | ok (quote : Quote)
deriving Repr, DecidableEq

/-- `update_quote_status` (quote_tools.py lines 324-376): raises `ValueError`
(modelled as `Except.error`) for a status outside the enum, then patches every
matching row. -/
def update_quote_status (store : List Quote) (quote_id : Int) (status : String)
    (notes : Option String) (now : Int) : Except String (StatusOutcome × List Quote) :=
  if status ∉ validQuoteStatuses then
    .error ("無效的狀態，允許: " ++ String.intercalate ", " validQuoteStatuses)
  else
    match store.filter (fun r => r.id == quote_id) with
    | [] => .ok (.notFound, store)
    | q :: _ =>
        .ok (.ok (statusPatch q status notes now),
             store.map (fun r => if r.id == quote_id then statusPatch r status notes now else r))

/-- A write issued against the data gateway. -/
inductive WriteOp where
  | createContract (id : Int)
  | patchQuotes (id : Int)
  | deleteQuotes (id : Int)
deriving Repr, DecidableEq

/-- Result of `delete_quote`. -/
inductive DeleteOutcome where
  | notFound
  | invalidState (current : String)
  | deleted (quote_number : Option String)
deriving Repr, DecidableEq

/-- `delete_quote` (quote_tools.py lines 379-410): fetch the quote, refuse
unless its status is exactly `draft`, else issue the delete. -/
def delete_quote (store : List Quote) (quote_id : Int) :
    DeleteOutcome × List Quote × List WriteOp :=
  match store.find? (fun r => r.id == quote_id) with
  | none => (.notFound, store, [])
  | some q =>
      if q.status ≠ "draft" then (.invalidState q.status, store, [])
      else (.deleted q.quote_number,
            store.filter (fun r => !(r.id == quote_id)),
            [.deleteQuotes quote_id])

/-- Caller-supplied arguments of `convert_quote_to_contract`; every parameter
defaults to `None` except the payment terms. -/
structure ConvertArgs where
  start_date : Option Int := none
  end_date : Option Int := none
  payment_cycle : String := "monthly"
  payment_day : Int := 5
  company_name : Option String := none
  representative_name : Option String := none
  representative_address : Option String := none
  id_number : Option String := none
  company_tax_id : Option String := none
  phone : Option String := none
  email : Option String := none
  original_price : Option ℚ := none
  monthly_rent : Option ℚ := none
  deposit_amount : Option ℚ := none
  notes : Option String := none
deriving Repr, DecidableEq

/-- A row of the `contracts` table, restricted to the columns the conversion
writes. -/
structure Contract where
  id : Int
  branch_id : Int
  contract_type : String
  plan_name : Option String
  start_date : Int
  end_date : Int
  monthly_rent : ℚ
  payment_cycle : String
  payment_day : Int
  deposit : ℚ
  status : String
  company_name : Option String
  representative_name : Option String
  phone : Option String
  email : Option String
  representative_address : Option String := none
  id_number : Option String := none
  company_tax_id : Option String := none
  original_price : Option ℚ := none
  notes : Option String := none
deriving Repr, DecidableEq

/-- The data-gateway state the conversion touches: quotes, contracts, and the
id the next `POST /contracts` will assign. -/
structure DB where
  quotes : List Quote
  contracts : List Contract
  nextContractId : Int
deriving Repr, DecidableEq

/-- The fallback note `f"從報價單 {quote_number} 轉換"`; a missing quote
number renders as Python `str(None)`. -/
def conversionNote (q : Quote) : String :=
  "從報價單 " ++ (q.quote_number.getD "None") ++ " 轉換"

/-- Steps 4-6 and 8 of the conversion (quote_tools.py lines 484-536): derive
the contract dates and amounts from caller overrides falling back to the
quote, and compose the insert record. -/
def buildContract (q : Quote) (a : ConvertArgs) (cid : Int) (today : Int) : Contract :=
  let contract_start :=
    match a.start_date with
    | some d => d
    | none => match q.proposed_start_date with | some d => d | none => today
  let m := q.contract_months
  let contract_end :=
    match a.end_date with
    | some e => e
    | none => contract_start + m * 30
  let rent :=
    match a.monthly_rent with
    | some r => r
    | none => if 0 < m then ((pyRound (q.total_amount / (m : ℚ)) : ℤ) : ℚ) else q.total_amount
  let dep :=
    match a.deposit_amount with
    | some d => d
    | none => q.deposit_amount
  { id := cid
    branch_id := q.branch_id
    contract_type := q.contract_type
    plan_name := q.plan_name
    start_date := contract_start
    end_date := contract_end
    monthly_rent := rent
    payment_cycle := a.payment_cycle
    payment_day := a.payment_day
    deposit := dep
    status := "pending_sign"
    company_name := pyOrStr a.company_name q.company_name
    representative_name := pyOrStr a.representative_name q.customer_name
    phone := pyOrStr a.phone q.customer_phone
    email := pyOrStr a.email q.customer_email
    representative_address := if optStrTruthy a.representative_address then a.representative_address else none
    id_number := if optStrTruthy a.id_number then a.id_number else none
    company_tax_id := if optStrTruthy a.company_tax_id then a.company_tax_id else none
    original_price := if optRatTruthy a.original_price then a.original_price else none
    notes := some (if optStrTruthy a.notes then a.notes.getD "" else conversionNote q) }

/-- Step 7 of the conversion: the patch marking the quote converted. -/
def markConverted (cid now : Int) (r : Quote) : Quote :=
  { r with status := "converted", converted_contract_id := some cid, converted_at := some now }

/-- The summary `convert_quote_to_contract` returns on success. -/
structure ConvertSummary where
  contract_id : Int
  start_date : Int
  end_date : Int
  monthly_rent : ℚ
  deposit : ℚ
  status : String
  quote_number : Option String
deriving Repr, DecidableEq

/-- Result of `convert_quote_to_contract`. -/
inductive ConvertOutcome where
  | notFound
  | invalidState (current : String)
  | alreadyConverted (contract_id : Int)
  | ok (summary : ConvertSummary)
deriving Repr, DecidableEq

/-- Whether the outcome is the already-converted failure. -/
def ConvertOutcome.isAlreadyConverted : ConvertOutcome → Bool
  | .alreadyConverted _ => true
  | _ => false

/-- The derived monthly rent of a successful outcome. -/
def ConvertOutcome.rentOf : ConvertOutcome → Option ℚ
  | .ok s => some s.monthly_rent
  | _ => none

/-- `convert_quote_to_contract` (quote_tools.py lines 413-572): fetch the
quote, check status and the idempotency guard, build and create the contract,
then patch the quote to `converted`. -/
def convert_quote_to_contract (db : DB) (quote_id : Int) (a : ConvertArgs)
    (today now : Int) : ConvertOutcome × DB × List WriteOp :=
  match db.quotes.find? (fun r => r.id == quote_id) with
  | none => (.notFound, db, [])
  | some q =>
      if q.status ≠ "accepted" then (.invalidState q.status, db, [])
      else if optIntTruthy q.converted_contract_id then
        (.alreadyConverted (q.converted_contract_id.getD 0), db, [])
      else
        let c := buildContract q a db.nextContractId today
        let quotes' := db.quotes.map (fun r => if r.id == quote_id then markConverted c.id now r else r)
        (.ok { contract_id := c.id
               start_date := c.start_date
               end_date := c.end_date
               monthly_rent := c.monthly_rent
               deposit := c.deposit
               status := "pending_sign"
               quote_number := q.quote_number },
         { quotes := quotes', contracts := db.contracts ++ [c], nextContractId := db.nextContractId + 1 },
         [.createContract c.id, .patchQuotes quote_id])

/-- Result of one push through the messaging gateway (`send_line_push`
collapses the missing-token, non-200 and transport cases into a failure
carrying an error string). -/
inductive PushResult where
  | ok
  | fail (error : String)
deriving Repr, DecidableEq

/-- One dispatched push: the target address (the payload's `to` key) and the
text block sent. -/
structure Dispatch where
  addr : String
  text : String
deriving Repr, DecidableEq

/-- A row of the `v_payments_due` view, restricted to the fields the reminder
engine reads. -/
structure Payment where
  id : Int
  branch_id : Int
  customer_name : String
  line_user_id : Option String := none
  payment_period : Option String := none
  total_due : ℚ
  due_date : Int
  overdue_days : Int := 0
  payment_status : String
  urgency : String
deriving Repr, DecidableEq

/-- The reminder text of `send_payment_reminder` (line_tools.py lines 178-200),
keyed by `reminder_type`, with the generic fallback for any other type. -/
def paymentReminderMessage (p : Payment) (reminder_type : String) : String :=
  let name := p.customer_name
  let period := p.payment_period.getD ""
  let amount := pyMoneyFormat p.total_due
  if reminder_type = "upcoming" then
    "親愛的 " ++ name ++ " 您好 🙋‍♀️\n\n提醒您 " ++ period ++ " 的租金 $" ++ amount ++
      " 將於 " ++ toString p.due_date ++ " 到期，請記得繳費喔！\n\n如有任何問題歡迎聯繫我們 💼"
  else if reminder_type = "due" then
    "親愛的 " ++ name ++ " 您好 📢\n\n您 " ++ period ++ " 的租金 $" ++ amount ++
      " 今天到期囉！\n請儘快完成繳費，謝謝您的配合 🙏"
  else if reminder_type = "overdue" then
    "親愛的 " ++ name ++ " 您好 ⚠️\n\n您 " ++ period ++ " 的租金 $" ++ amount ++
      " 已逾期 " ++ toString p.overdue_days ++ " 天，請儘速處理。\n\n如有任何困難請聯繫我們協助處理 📞"
  else
    "親愛的 " ++ name ++ "，您有一筆 $" ++ amount ++ " 的款項需要處理。"

/-- Result of `send_payment_reminder`. -/
inductive ReminderOutcome where
  | notFound
  | noLine (customer : String)
  | sent (payment_id : Int) (reminder_type : String)
  | pushFailed (error : String)
deriving Repr, DecidableEq

/-- The `error` field of the envelope `send_payment_reminder` returns
(`None` on success). -/
def ReminderOutcome.errorMsg : ReminderOutcome → Option String
  | .notFound => some "找不到付款記錄"
  | .noLine c => some ("客戶 " ++ c ++ " 沒有綁定 LINE")
  | .sent _ _ => none
  | .pushFailed e => some e

/-- `send_payment_reminder` (line_tools.py lines 138-218): fetch the payment
by id, require a bound LINE address, render the type-keyed message, dispatch
it, and echo the reminder type on success. -/
def send_payment_reminder (store : List Payment) (gw : String → String → PushResult)
    (payment_id : Int) (reminder_type : String) : ReminderOutcome × List Dispatch :=
  match store.find? (fun p => p.id == payment_id) with
  | none => (.notFound, [])
  | some p =>
      if !optStrTruthy p.line_user_id then (.noLine p.customer_name, [])
      else
        let addr := p.line_user_id.getD ""
        let msg := paymentReminderMessage p reminder_type
        match gw addr msg with
        | .ok => (.sent payment_id reminder_type, [⟨addr, msg⟩])
        | .fail e => (.pushFailed e, [⟨addr, msg⟩])

/-- A row of the `v_renewal_reminders` view. -/
structure Renewal where
  contract_id : Int
  customer_name : String
  line_user_id : Option String := none
  end_date : Int
  days_remaining : Int
  branch_name : String
deriving Repr, DecidableEq

/-- The urgency label of `send_renewal_reminder` (line_tools.py lines 259-264). -/
def renewalUrgency (days_remaining : Int) : String :=
  if days_remaining ≤ 7 then "⚠️ 緊急"
  else if days_remaining ≤ 30 then "📢 重要"
  else "📋 提醒"

/-- The renewal reminder text (line_tools.py lines 266-273). -/
def renewalMessage (r : Renewal) : String :=
  renewalUrgency r.days_remaining ++ " 續約通知\n\n親愛的 " ++ r.customer_name ++
    " 您好，\n\n您在 " ++ r.branch_name ++ " 的合約將於 " ++ toString r.end_date ++
    " 到期，距今還有 " ++ toString r.days_remaining ++
    " 天。\n\n如需續約或有任何問題，歡迎隨時聯繫我們！\n\n感謝您對 Hour Jungle 的支持 🙏"

/-- Result of `send_renewal_reminder`. -/
inductive RenewalOutcome where
  | notFound
  | noLine (customer : String)
  | sent (contract_id : Int) (days_remaining : Int)
  | pushFailed (error : String)
deriving Repr, DecidableEq

/-- `send_renewal_reminder` (line_tools.py lines 221-291). -/
def send_renewal_reminder (renewals : List Renewal) (gw : String → String → PushResult)
    (contract_id : Int) : RenewalOutcome × List Dispatch :=
  match renewals.find? (fun r => r.contract_id == contract_id) with
  | none => (.notFound, [])
  | some r =>
      if !optStrTruthy r.line_user_id then (.noLine r.customer_name, [])
      else
        let addr := r.line_user_id.getD ""
        let msg := renewalMessage r
        match gw addr msg with
        | .ok => (.sent contract_id r.days_remaining, [⟨addr, msg⟩])
        | .fail e => (.pushFailed e, [⟨addr, msg⟩])

/-- The filter `send_bulk_payment_reminders` sends to the view: a truthy
`branch_id` adds an equality filter, `urgency != "all"` adds another. -/
def paymentFilter (branch_id : Option Int) (urgency : String) (p : Payment) : Bool :=
  (match branch_id with
   | some b => if b ≠ 0 then p.branch_id == b else true
   | none => true) &&
  (if urgency ≠ "all" then p.urgency == urgency else true)

/-- The per-item reminder type of the bulk loop (line_tools.py line 337). -/
def bulkReminderType (p : Payment) : String :=
  if p.payment_status == "overdue" then "overdue" else "upcoming"

/-- One error entry of the bulk report. -/
structure BulkError where
  payment_id : Int
  customer : String
  error : Option String
deriving Repr, DecidableEq

/-- Accumulated state of the live bulk loop. -/
structure BulkAcc where
  sent_count : Nat
  failed_count : Nat
  errors : List BulkError
  dispatches : List Dispatch
deriving Repr, DecidableEq

/-- The live loop of `send_bulk_payment_reminders` (lines 336-348): dispatch
each candidate independently through `send_payment_reminder` and accumulate
counts, failures and dispatches in order. -/
def bulkSendLoop (store : List Payment) (gw : String → String → PushResult) :
    List Payment → BulkAcc
  | [] => ⟨0, 0, [], []⟩
  | p :: rest =>
      let (out, disp) := send_payment_reminder store gw p.id (bulkReminderType p)
      let acc := bulkSendLoop store gw rest
      match out with
      | .sent _ _ => ⟨acc.sent_count + 1, acc.failed_count, acc.errors, disp ++ acc.dispatches⟩
      | o => ⟨acc.sent_count, acc.failed_count + 1,
              ⟨p.id, p.customer_name, o.errorMsg⟩ :: acc.errors, disp ++ acc.dispatches⟩

/-- Result of `send_bulk_payment_reminders`: the dry-run report or the live
report (`errors if errors else None`). -/
inductive BulkResult where
  | dry (total_payments with_line_id would_send : Nat) (total_amount : ℚ)
  | live (sent_count failed_count : Nat) (errors : Option (List BulkError))
deriving Repr, DecidableEq

/-- The `would_send` field of a dry-run report. -/
def BulkResult.wouldSend : BulkResult → Option Nat
  | .dry _ _ w _ => some w
  | _ => none

/-- `send_bulk_payment_reminders` (line_tools.py lines 294-359). -/
def send_bulk_payment_reminders (store : List Payment) (gw : String → String → PushResult)
    (branch_id : Option Int) (urgency : String) (dry_run : Bool) :
    BulkResult × List Dispatch :=
  let payments := store.filter (paymentFilter branch_id urgency)
  let withLine := payments.filter (fun p => optStrTruthy p.line_user_id)
  if dry_run then
    (.dry payments.length withLine.length withLine.length
       ((withLine.map (fun p => p.total_due)).sum), [])
  else
    let acc := bulkSendLoop store gw withLine
    (.live acc.sent_count acc.failed_count
       (if acc.errors.isEmpty then none else some acc.errors),
     acc.dispatches)

/-- The envelope `/tools/call` returns (main.py lines 367-379). -/
structure ToolEnvelope (δ : Type) where
  success : Bool
  tool : String
  result : Option δ
  error : Option String
deriving Repr, DecidableEq

/-- `call_tool` (main.py lines 351-379): an unknown tool name raises
`HTTPException(404)` (modelled as `Except.error` carrying status and detail);
otherwise the handler runs and its error, if any, is converted into the
uniform failure envelope instead of propagating. -/
def call_tool {γ δ : Type} (tools : List (String × (γ → Except String δ)))
    (name : String) (params : γ) : Except (Nat × String) (ToolEnvelope δ) :=
  match tools.lookup name with
  | none => .error (404, "Tool " ++ name ++ " not found")
  | some handler =>
      match handler params with
      | .ok v => .ok { success := true, tool := name, result := some v, error := none }
      | .error e => .ok { success := false, tool := name, result := none, error := some e }

/-!  Theorems for the spec claims. -/

/-- C6: for every quote, `delete_quote` succeeds if and only if the quote is
found and its current status is exactly `draft`; for a quote in any other
status it returns a failure, issues no write, and leaves the store unchanged. -/
theorem delete_quote_draft_only (store : List Quote) (quote_id : Int) :
    ((∃ num, (delete_quote store quote_id).1 = .deleted num) ↔
      (∃ q, store.find? (fun r => r.id == quote_id) = some q ∧ q.status = "draft")) ∧
    (∀ q, store.find? (fun r => r.id == quote_id) = some q → q.status ≠ "draft" →
      delete_quote store quote_id = (.invalidState q.status, store, [])) := by
  unfold delete_quote
  cases h : store.find? (fun r => r.id == quote_id) with
  | none => simp
  | some q =>
      by_cases hs : q.status = "draft"
      · simp [hs]
      · simp only [hs]
        constructor
        · simp [hs]
        · intro q' hq' _
          cases hq'
          simp [hs]

/-- C6 witness: deleting a quote whose status is `sent` fails with the
invalid-state message and performs no delete write. -/
theorem delete_quote_draft_only_witness :
    delete_quote [{ id := 1, branch_id := 1, status := "sent" }] 1 =
      (.invalidState "sent", [{ id := 1, branch_id := 1, status := "sent" }], []) :=
  (delete_quote_draft_only [{ id := 1, branch_id := 1, status := "sent" }] 1).2
    { id := 1, branch_id := 1, status := "sent" } (by decide) (by decide)

/-- C3 counterexample: the status-update operation does fail with a
validation error for a status string outside the enum — `"bogus"` raises
`ValueError` before any gateway call, contradicting the claim that every
status string is accepted. -/
theorem update_quote_status_rejects_bogus :
    update_quote_status [] 1 "bogus" none 0 =
      .error ("無效的狀態，允許: " ++ String.intercalate ", " validQuoteStatuses) := by
  rfl

/-- C3 amended: the status-update operation validates the target status
against the enum draft/sent/viewed/accepted/rejected/expired/converted —
members are accepted as-is with only the fixed timestamp side effect keyed by
the target status (`sent` stamps `sent_at`, `viewed` stamps `viewed_at`,
`accepted`/`rejected` stamp `responded_at`, the rest stamp nothing), while any
other string fails with a validation error. -/
theorem update_quote_status_enum_and_stamps (store : List Quote) (quote_id : Int)
    (status : String) (notes : Option String) (now : Int) :
    (status ∈ validQuoteStatuses → ∃ r, update_quote_status store quote_id status notes now = .ok r) ∧
    (status ∉ validQuoteStatuses → ∃ e, update_quote_status store quote_id status notes now = .error e) ∧
    (∀ q, (statusPatch q status notes now).status = status ∧
      (statusPatch q status notes now).sent_at = (if status = "sent" then some now else q.sent_at) ∧
      (statusPatch q status notes now).viewed_at = (if status = "viewed" then some now else q.viewed_at) ∧
      (statusPatch q status notes now).responded_at =
        (if status = "accepted" ∨ status = "rejected" then some now else q.responded_at)) ∧
    (∀ q rest, status ∈ validQuoteStatuses →
      store.filter (fun r => r.id == quote_id) = q :: rest →
      update_quote_status store quote_id status notes now =
        .ok (.ok (statusPatch q status notes now),
             store.map (fun r => if r.id == quote_id then statusPatch r status notes now else r))) := by
  refine ⟨?_, ?_, ?_, ?_⟩
  · intro hv
    unfold update_quote_status
    simp only [hv, not_true_eq_false, if_false]
    cases store.filter (fun r => r.id == quote_id) <;> exact ⟨_, rfl⟩
  · intro hv
    unfold update_quote_status
    simp [hv]
  · intro q
    simp [statusPatch]
  · intro q rest hv hf
    unfold update_quote_status
    simp only [hv, not_true_eq_false, if_false, hf]

/-- C3 witness: updating a found quote to `sent` succeeds and applies the
`sent_at` timestamp patch. -/
theorem update_quote_status_enum_and_stamps_witness :
    update_quote_status [{ id := 1, branch_id := 1, status := "draft" }] 1 "sent" none 5 =
      .ok (.ok (statusPatch { id := 1, branch_id := 1, status := "draft" } "sent" none 5),
        [{ id := 1, branch_id := 1, status := "draft" }].map
          (fun r => if r.id == 1 then statusPatch r "sent" none 5 else r)) :=
  (update_quote_status_enum_and_stamps [{ id := 1, branch_id := 1, status := "draft" }]
      1 "sent" none 5).2.2.2 { id := 1, branch_id := 1, status := "draft" } []
    (by decide) (by decide)

/-- A stored quote with a nonzero discount, used to exercise `update_quote`. -/
def discountedQuote : Quote :=
  { id := 1, branch_id := 1, items := [{ amount := some 1000 }],
    subtotal := 1000, discount_amount := 100, total_amount := 900 }

/-- An update that supplies new items but no discount. -/
def itemsOnlyUpdate : QuoteUpdates := { items := some [{ amount := some 500 }] }

/-- C2 counterexample: updating the items of a quote whose stored discount is
100, without resupplying the discount, stores `subtotal = 500`,
`discount_amount = 100` but `total_amount = 500` — the code subtracted the
*default* discount 0, not the quote's unchanged discount, so
`total_amount ≠ subtotal − discount_amount`. -/
theorem update_quote_items_drops_stored_discount :
    ((update_quote [discountedQuote] 1 itemsOnlyUpdate).1.quoteOf.map
        (fun q => (q.subtotal, q.discount_amount, q.total_amount))) =
      some (500, 100, 500) ∧ ¬ ((500 : ℚ) = 500 - 100) := by
  constructor
  · decide
  · decide

/-- C2 amended: after `create_quote` the stored record satisfies
`subtotal = Σ items.amount` and `total_amount = subtotal − discount_amount`;
after any `update_quote` whose field set includes `items`, the stored record
satisfies `subtotal = Σ new items.amount` and `total_amount = subtotal minus
the supplied discount if any, else minus 0` — while the stored
`discount_amount` column itself keeps the supplied value if any, else its old
value (so the invariant `total_amount = subtotal − discount_amount` holds
only when the discount is supplied together with the items, or the old
discount was 0). -/
theorem quote_totals_after_create_and_update
    (branch : Int) (ct : String) (cm : Int) (items : Option (List QuoteItem))
    (discount deposit : Option ℚ) (valid_days today : Int)
    (store : List Quote) (quote_id : Int) (u : QuoteUpdates) (its : List QuoteItem)
    (flds : List String) (q' : Quote) (store' : List Quote) :
    ((create_quote branch ct cm items discount deposit valid_days today).subtotal =
        itemsSubtotal (items.getD []) ∧
     (create_quote branch ct cm items discount deposit valid_days today).total_amount =
        (create_quote branch ct cm items discount deposit valid_days today).subtotal -
        (create_quote branch ct cm items discount deposit valid_days today).discount_amount) ∧
    (u.items = some its →
     update_quote store quote_id u = (.ok flds q', store') →
     q'.subtotal = itemsSubtotal its ∧
     q'.total_amount = q'.subtotal - u.discount_amount.getD 0 ∧
     ∃ q₀, q₀ ∈ store ∧ q₀.id = quote_id ∧
       q'.discount_amount = u.discount_amount.getD q₀.discount_amount) := by
  constructor
  · exact ⟨rfl, rfl⟩
  · intro hits h
    unfold update_quote at h
    by_cases he : u.isEmpty
    · simp [he] at h
    · simp only [he, Bool.false_eq_true, if_false] at h
      cases hf : store.filter (fun r => r.id == quote_id) with
      | nil => rw [hf] at h; simp at h
      | cons q rest =>
          rw [hf] at h
          simp only [Prod.mk.injEq, UpdateOutcome.ok.injEq] at h
          obtain ⟨⟨-, hq'⟩, -⟩ := h
          subst hq'
          have hqmem : q ∈ store.filter (fun r => r.id == quote_id) := by
            rw [hf]; exact List.mem_cons_self q rest
          have hqs := List.mem_filter.mp hqmem
          refine ⟨?_, ?_, q, hqs.1, by simpa using hqs.2, ?_⟩ <;>
            simp [applyQuotePatch, recomputeTotals, hits]

/-- C2 witness: updating items `[500]` together with discount `50` on the
discounted quote stores `subtotal = 500`, `total_amount = 450`,
`discount_amount = 50`. -/
theorem quote_totals_after_create_and_update_witness :
    (applyQuotePatch discountedQuote
        (recomputeTotals { items := some [{ amount := some 500 }], discount_amount := some 50 })).subtotal
        = itemsSubtotal [{ amount := some 500 }] ∧
    (applyQuotePatch discountedQuote
        (recomputeTotals { items := some [{ amount := some 500 }], discount_amount := some 50 })).total_amount
        = (applyQuotePatch discountedQuote
            (recomputeTotals { items := some [{ amount := some 500 }], discount_amount := some 50 })).subtotal - 50 := by
  have h := (quote_totals_after_create_and_update 1 "virtual_office" 12 none none none 30 0
      [discountedQuote] 1 { items := some [{ amount := some 500 }], discount_amount := some 50 }
      [{ amount := some 500 }]
      (recomputeTotals { items := some [{ amount := some 500 }], discount_amount := some 50 }).fieldNames
      (applyQuotePatch discountedQuote
        (recomputeTotals { items := some [{ amount := some 500 }], discount_amount := some 50 }))
      [applyQuotePatch discountedQuote
        (recomputeTotals { items := some [{ amount := some 500 }], discount_amount := some 50 })]).2
    rfl (by decide)
  exact ⟨h.1, h.2.1⟩

/-- Patching the rows matching an id commutes with looking the id up: the
first row found afterwards is the patched first match. -/
theorem find_map_markConverted (l : List Quote) (qid cid now : Int) :
    (l.map (fun r => if r.id == qid then markConverted cid now r else r)).find?
        (fun r => r.id == qid) =
      (l.find? (fun r => r.id == qid)).map (markConverted cid now) := by
  induction l with
  | nil => simp
  | cons r t ih =>
      by_cases hr : (r.id == qid) = true
      · have hm : ((markConverted cid now r).id == qid) = true := by
          simpa [markConverted] using hr
        have h1 : ((markConverted cid now r) ::
            t.map (fun r => if r.id == qid then markConverted cid now r else r)).find?
              (fun r => r.id == qid) = some (markConverted cid now r) :=
          List.find?_cons_of_pos _ hm
        have h2 : (r :: t).find? (fun r => r.id == qid) = some r :=
          List.find?_cons_of_pos _ hr
        simp only [List.map_cons, if_pos hr, h1, h2, Option.map_some']
      · have h1 : (r :: t.map (fun r => if r.id == qid then markConverted cid now r else r)).find?
            (fun r => r.id == qid) =
              (t.map (fun r => if r.id == qid then markConverted cid now r else r)).find?
                (fun r => r.id == qid) :=
          List.find?_cons_of_neg _ hr
        have h2 : (r :: t).find? (fun r => r.id == qid) = t.find? (fun r => r.id == qid) :=
          List.find?_cons_of_neg _ hr
        simp only [List.map_cons, if_neg hr, h1, h2, ih]

/-- An accepted, not yet converted quote (total 900, 12 contract months). -/
def acceptedQuote : Quote :=
  { id := 1, branch_id := 1, status := "accepted", total_amount := 900 }

/-- A gateway state holding only `acceptedQuote`. -/
def convDb : DB := { quotes := [acceptedQuote], contracts := [], nextContractId := 7 }

/-- C1 counterexample: after a successful conversion the second convert call
on the same quote fails with the *invalid-state* branch (the status is now
`converted`), never with the already-converted failure the claim names; it
still performs no writes. -/
theorem convert_second_call_not_already_converted :
    ((convert_quote_to_contract convDb 1 {} 0 0).1.rentOf.isSome = true) ∧
    ((convert_quote_to_contract (convert_quote_to_contract convDb 1 {} 0 0).2.1 1 {} 0 0).1 =
        .invalidState "converted") ∧
    ((convert_quote_to_contract (convert_quote_to_contract convDb 1 {} 0 0).2.1 1 {} 0 0).1.isAlreadyConverted
        = false) ∧
    ((convert_quote_to_contract (convert_quote_to_contract convDb 1 {} 0 0).2.1 1 {} 0 0).2.2 =
        ([] : List WriteOp)) := by
  refine ⟨by decide, by decide, by decide, by decide⟩

/-- C1 amended: `convert_quote_to_contract` succeeds iff the quote exists,
its status is exactly `accepted`, and its `converted_contract_id` is unset
(falsy); after a successful conversion, any second convert call on the same
quote fails — with the invalid-state failure carrying the new status
`converted`, since the first call moved the status off `accepted` — and
performs no create or patch writes. -/
theorem convert_succeeds_iff_and_second_call_fails :
    (∀ db qid a today now,
      (∃ s, (convert_quote_to_contract db (qid : Int) a today now).1 = .ok s) ↔
        (∃ q, db.quotes.find? (fun r => r.id == qid) = some q ∧
          q.status = "accepted" ∧ optIntTruthy q.converted_contract_id = false)) ∧
    (∀ db qid a today now s db' w a₂ t₂ n₂,
      convert_quote_to_contract db qid a today now = (.ok s, db', w) →
      (convert_quote_to_contract db' qid a₂ t₂ n₂).1 = .invalidState "converted" ∧
      (convert_quote_to_contract db' qid a₂ t₂ n₂).2.2 = ([] : List WriteOp)) := by
  constructor
  · intro db qid a today now
    unfold convert_quote_to_contract
    cases h : db.quotes.find? (fun r => r.id == qid) with
    | none => simp
    | some q =>
        by_cases hs : q.status = "accepted"
        · by_cases hc : optIntTruthy q.converted_contract_id
          · simp [hs, hc]
          · simp [hs, hc]
        · simp [hs]
  · intro db qid a today now s db' w a₂ t₂ n₂ h
    unfold convert_quote_to_contract at h
    cases hf : db.quotes.find? (fun r => r.id == qid) with
    | none => rw [hf] at h; simp at h
    | some q =>
        rw [hf] at h
        by_cases hs : q.status = "accepted"
        · by_cases hc : optIntTruthy q.converted_contract_id
          · simp [hs, hc] at h
          · simp only [hs, hc, ne_eq, not_true_eq_false, if_false, Bool.false_eq_true,
              Prod.mk.injEq] at h
            obtain ⟨-, hdb, -⟩ := h
            subst hdb
            unfold convert_quote_to_contract
            rw [find_map_markConverted, hf]
            simp [markConverted]
        · simp [hs] at h

/-- C1 witness: on the concrete accepted quote, the first conversion succeeds
and the second call fails with the invalid-state branch and no writes. -/
theorem convert_succeeds_iff_and_second_call_fails_witness :
    (convert_quote_to_contract (convert_quote_to_contract convDb 1 {} 0 0).2.1 1 {} 0 0).1 =
        .invalidState "converted" ∧
    (convert_quote_to_contract (convert_quote_to_contract convDb 1 {} 0 0).2.1 1 {} 0 0).2.2 =
        ([] : List WriteOp) :=
  convert_succeeds_iff_and_second_call_fails.2 convDb 1 {} 0 0
    { contract_id := 7, start_date := 0, end_date := 360, monthly_rent := 75, deposit := 0,
      status := "pending_sign", quote_number := none }
    (convert_quote_to_contract convDb 1 {} 0 0).2.1
    (convert_quote_to_contract convDb 1 {} 0 0).2.2 {} 0 0 (by decide)

/-- C4: when the caller supplies no `monthly_rent` and no `end_date`, the
conversion derives `monthly_rent = round(total_amount / contract_months)`
(half to even) for positive `contract_months`, `monthly_rent = total_amount`
unrounded for `contract_months = 0`, and `end_date = start_date +
contract_months * 30` days; in particular converting the accepted quote with
`total_amount = 900` and `contract_months = 12` yields `monthly_rent = 75`. -/
theorem convert_derives_rent_and_end_date :
    (∀ db qid a today now q s db' w,
      a.monthly_rent = none → a.end_date = none →
      db.quotes.find? (fun r => r.id == qid) = some q →
      convert_quote_to_contract db (qid : Int) a today now = (.ok s, db', w) →
      (0 < q.contract_months →
        s.monthly_rent = ((pyRound (q.total_amount / (q.contract_months : ℚ)) : ℤ) : ℚ)) ∧
      (q.contract_months = 0 → s.monthly_rent = q.total_amount) ∧
      s.end_date = s.start_date + q.contract_months * 30) ∧
    (convert_quote_to_contract convDb 1 {} 0 0).1.rentOf = some 75 := by
  constructor
  · intro db qid a today now q s db' w hmr hed hf h
    unfold convert_quote_to_contract at h
    rw [hf] at h
    by_cases hs : q.status = "accepted"
    · by_cases hc : optIntTruthy q.converted_contract_id
      · simp [hs, hc] at h
      · simp only [hs, hc, ne_eq, not_true_eq_false, if_false, Bool.false_eq_true,
          Prod.mk.injEq, ConvertOutcome.ok.injEq] at h
        obtain ⟨hsum, -, -⟩ := h
        subst hsum
        refine ⟨?_, ?_, ?_⟩
        · intro hm
          simp [buildContract, hmr, hm]
        · intro hm
          simp [buildContract, hmr, hm]
        · simp [buildContract, hed]
    · simp [hs] at h
  · decide

/-- C4 witness: the concrete conversion of the 900-total, 12-month quote
derives rent `round(900/12)` and end date `start + 360`. -/
theorem convert_derives_rent_and_end_date_witness :
    ({ contract_id := 7, start_date := 0, end_date := 360, monthly_rent := 75, deposit := 0,
        status := "pending_sign", quote_number := none } : ConvertSummary).monthly_rent =
      ((pyRound (acceptedQuote.total_amount / (acceptedQuote.contract_months : ℚ)) : ℤ) : ℚ) ∧
    ({ contract_id := 7, start_date := 0, end_date := 360, monthly_rent := 75, deposit := 0,
        status := "pending_sign", quote_number := none } : ConvertSummary).end_date =
      ({ contract_id := 7, start_date := 0, end_date := 360, monthly_rent := 75, deposit := 0,
          status := "pending_sign", quote_number := none } : ConvertSummary).start_date +
        acceptedQuote.contract_months * 30 := by
  have h := convert_derives_rent_and_end_date.1 convDb 1 {} 0 0 acceptedQuote
    { contract_id := 7, start_date := 0, end_date := 360, monthly_rent := 75, deposit := 0,
      status := "pending_sign", quote_number := none }
    (convert_quote_to_contract convDb 1 {} 0 0).2.1
    (convert_quote_to_contract convDb 1 {} 0 0).2.2 rfl rfl (by decide) (by decide)
  exact ⟨h.1 (by decide), h.2.2⟩

/-- C7: a dry-run bulk reminder invocation never calls the messaging gateway
(zero dispatches) and reports `would_send` equal to the number of filtered
candidate payments holding a bound (truthy) LINE address. -/
theorem bulk_dry_run_no_dispatch (store : List Payment) (gw : String → String → PushResult)
    (branch_id : Option Int) (urgency : String) :
    (send_bulk_payment_reminders store gw branch_id urgency true).2 = [] ∧
    (send_bulk_payment_reminders store gw branch_id urgency true).1.wouldSend =
      some ((store.filter (paymentFilter branch_id urgency)).filter
        (fun p => optStrTruthy p.line_user_id)).length := by
  exact ⟨rfl, rfl⟩

/-- C8: the renewal-reminder urgency tier is selected by thresholds inclusive
on the lower side — `days_remaining ≤ 7` urgent, `7 < days ≤ 30` important,
`30 < days` informational; 5 is urgent, 20 important, 45 informational; and
the dispatched renewal message opens with exactly that tier label. -/
theorem renewal_urgency_tiers :
    (∀ d : Int, d ≤ 7 → renewalUrgency d = "⚠️ 緊急") ∧
    (∀ d : Int, 7 < d → d ≤ 30 → renewalUrgency d = "📢 重要") ∧
    (∀ d : Int, 30 < d → renewalUrgency d = "📋 提醒") ∧
    (renewalUrgency 5 = "⚠️ 緊急" ∧ renewalUrgency 20 = "📢 重要" ∧
      renewalUrgency 45 = "📋 提醒") ∧
    (∀ renewals gw cid r, renewals.find? (fun x => x.contract_id == cid) = some r →
      optStrTruthy r.line_user_id = true →
      (send_renewal_reminder renewals gw cid).2 =
        [{ addr := r.line_user_id.getD "", text := renewalMessage r }] ∧
      ∃ rest, renewalMessage r = renewalUrgency r.days_remaining ++ rest) := by
  refine ⟨?_, ?_, ?_, ⟨by decide, by decide, by decide⟩, ?_⟩
  · intro d hd
    simp [renewalUrgency, hd]
  · intro d hd1 hd2
    rw [renewalUrgency, if_neg (by omega), if_pos hd2]
  · intro d hd
    rw [renewalUrgency, if_neg (by omega), if_neg (by omega)]
  · intro renewals gw cid r hf hline
    constructor
    · unfold send_renewal_reminder
      rw [hf]
      simp only [hline, Bool.not_true, Bool.false_eq_true, if_false]
      cases gw (r.line_user_id.getD "") (renewalMessage r) <;> rfl
    · refine ⟨" 續約通知\n\n親愛的 " ++ r.customer_name ++ " 您好，\n\n您在 " ++
        r.branch_name ++ " 的合約將於 " ++ toString r.end_date ++ " 到期，距今還有 " ++
        toString r.days_remaining ++
        " 天。\n\n如需續約或有任何問題，歡迎隨時聯繫我們！\n\n感謝您對 Hour Jungle 的支持 🙏", ?_⟩
      simp [renewalMessage, String.append_assoc]

/-- C8 witness: 5 remaining days select the urgent tier. -/
theorem renewal_urgency_tiers_witness :
    renewalUrgency 5 = "⚠️ 緊急" :=
  renewal_urgency_tiers.1 5 (by decide)

/-- C10: a reminder type outside upcoming/due/overdue is not rejected — the
operation renders the generic fallback message (which carries the customer
name and the formatted amount), dispatches it, and on gateway success returns
success echoing the supplied reminder type (on gateway failure it returns the
gateway's failure). -/
theorem payment_reminder_unknown_type_fallback
    (store : List Payment) (gw : String → String → PushResult) (pid : Int)
    (reminder_type : String) (p : Payment) :
    reminder_type ∉ (["upcoming", "due", "overdue"] : List String) →
    store.find? (fun x => x.id == pid) = some p →
    optStrTruthy p.line_user_id = true →
    (paymentReminderMessage p reminder_type =
      "親愛的 " ++ p.customer_name ++ "，您有一筆 $" ++ pyMoneyFormat p.total_due ++
        " 的款項需要處理。") ∧
    ((send_payment_reminder store gw pid reminder_type).2 =
      [{ addr := p.line_user_id.getD "", text := paymentReminderMessage p reminder_type }]) ∧
    (gw (p.line_user_id.getD "") (paymentReminderMessage p reminder_type) = .ok →
      (send_payment_reminder store gw pid reminder_type).1 = .sent pid reminder_type) ∧
    (∀ e, gw (p.line_user_id.getD "") (paymentReminderMessage p reminder_type) = .fail e →
      (send_payment_reminder store gw pid reminder_type).1 = .pushFailed e) := by
  intro hrt hf hline
  have h1 : ¬ reminder_type = "upcoming" := fun h => hrt (by simp [h])
  have h2 : ¬ reminder_type = "due" := fun h => hrt (by simp [h])
  have h3 : ¬ reminder_type = "overdue" := fun h => hrt (by simp [h])
  refine ⟨?_, ?_, ?_, ?_⟩
  · rw [paymentReminderMessage, if_neg h1, if_neg h2, if_neg h3]
  · unfold send_payment_reminder
    rw [hf]
    simp only [hline, Bool.not_true, Bool.false_eq_true, if_false]
    cases gw (p.line_user_id.getD "") (paymentReminderMessage p reminder_type) <;> rfl
  · intro hok
    unfold send_payment_reminder
    rw [hf]
    simp [hline, hok]
  · intro e hfail
    unfold send_payment_reminder
    rw [hf]
    simp [hline, hfail]

/-- A due payment bound to a LINE address, used as concrete input. -/
def duePayment : Payment :=
  { id := 9, branch_id := 1, customer_name := "王小明", line_user_id := some "U9",
    total_due := 12000, due_date := 15, payment_status := "due", urgency := "high" }

/-- C10 witness: reminder type `"final_notice"` on the concrete payment
renders the fallback message and succeeds through an accepting gateway. -/
theorem payment_reminder_unknown_type_fallback_witness :
    paymentReminderMessage duePayment "final_notice" =
      "親愛的 " ++ duePayment.customer_name ++ "，您有一筆 $" ++
        pyMoneyFormat duePayment.total_due ++ " 的款項需要處理。" ∧
    (send_payment_reminder [duePayment] (fun _ _ => .ok) 9 "final_notice").1 =
      .sent 9 "final_notice" := by
  have h := payment_reminder_unknown_type_fallback [duePayment] (fun _ _ => .ok) 9
    "final_notice" duePayment (by decide) (by decide) (by decide)
  exact ⟨h.1, h.2.2.1 rfl⟩

/-- Whether the gateway accepts the push the bulk loop issues for payment `p`. -/
def itemOk (gw : String → String → PushResult) (p : Payment) : Bool :=
  match gw (p.line_user_id.getD "") (paymentReminderMessage p (bulkReminderType p)) with
  | .ok => true
  | .fail _ => false

/-- The gateway error, if any, for the push the bulk loop issues for `p`. -/
def itemErrOf (gw : String → String → PushResult) (p : Payment) : Option String :=
  match gw (p.line_user_id.getD "") (paymentReminderMessage p (bulkReminderType p)) with
  | .ok => none
  | .fail e => some e

/-- With pairwise-distinct payment ids, looking a member's id up in the store
returns that member. -/
theorem find_payment_self (store : List Payment)
    (hnd : (store.map (fun p => p.id)).Nodup) (p : Payment) (hp : p ∈ store) :
    store.find? (fun x => x.id == p.id) = some p := by
  induction store with
  | nil => cases hp
  | cons q t ih =>
      simp only [List.map_cons, List.nodup_cons] at hnd
      rcases List.mem_cons.mp hp with rfl | hp'
      · exact List.find?_cons_of_pos _ (by simp)
      · have hq : ¬ (q.id == p.id) = true := by
          intro hqp
          exact hnd.1 (by
            have hm : p.id ∈ t.map (fun x => x.id) := List.mem_map_of_mem _ hp'
            simpa [show q.id = p.id from by simpa using hqp] using hm)
        have hcons : (q :: t).find? (fun x => x.id == p.id) =
            t.find? (fun x => x.id == p.id) := List.find?_cons_of_neg _ hq
        rw [hcons]
        exact ih hnd.2 hp'

/-- The live bulk loop, item by item: over candidates that are members of the
store (with distinct ids) and hold a truthy LINE address, it counts one
success per accepted push, one failure per rejected push, records exactly the
failed items in order, and dispatches one push per candidate. -/
theorem bulkSendLoop_spec (store : List Payment) (gw : String → String → PushResult)
    (hnd : (store.map (fun p => p.id)).Nodup) :
    ∀ L : List Payment, (∀ p ∈ L, p ∈ store ∧ optStrTruthy p.line_user_id = true) →
    bulkSendLoop store gw L =
      { sent_count := L.countP (fun p => itemOk gw p),
        failed_count := L.countP (fun p => !(itemOk gw p)),
        errors := (L.filter (fun p => !(itemOk gw p))).map
          (fun p => { payment_id := p.id, customer := p.customer_name,
                      error := itemErrOf gw p }),
        dispatches := L.map (fun p =>
          { addr := p.line_user_id.getD "",
            text := paymentReminderMessage p (bulkReminderType p) }) } := by
  intro L
  induction L with
  | nil => intro _; rfl
  | cons p rest ih =>
      intro hL
      have hp := hL p (List.mem_cons_self p rest)
      have hfind := find_payment_self store hnd p hp.1
      have hrest := ih (fun x hx => hL x (List.mem_cons_of_mem _ hx))
      unfold bulkSendLoop
      rw [hrest]
      unfold send_payment_reminder
      rw [hfind]
      simp only [hp.2, Bool.not_true, Bool.false_eq_true, if_false]
      cases hgw : gw (p.line_user_id.getD "") (paymentReminderMessage p (bulkReminderType p)) with
      | ok =>
          have hok : itemOk gw p = true := by simp [itemOk, hgw]
          simp [List.countP_cons, List.filter_cons, hok]
      | fail e =>
          have hok : itemOk gw p = false := by simp [itemOk, hgw]
          have herr : itemErrOf gw p = some e := by simp [itemErrOf, hgw]
          simp [List.countP_cons, List.filter_cons, hok, herr, ReminderOutcome.errorMsg]

/-- The per-item independent-dispatch result the live bulk run must equal:
counts and the failure list computed candidate by candidate. -/
def liveBulkSpec (store : List Payment) (gw : String → String → PushResult)
    (branch_id : Option Int) (urgency : String) : BulkResult × List Dispatch :=
  let wl := (store.filter (paymentFilter branch_id urgency)).filter
    (fun p => optStrTruthy p.line_user_id)
  let errs := (wl.filter (fun p => !(itemOk gw p))).map
    (fun p => { payment_id := p.id, customer := p.customer_name, error := itemErrOf gw p })
  (.live (wl.countP (fun p => itemOk gw p)) (wl.countP (fun p => !(itemOk gw p)))
     (if errs.isEmpty then none else some errs),
   wl.map (fun p =>
     { addr := p.line_user_id.getD "",
       text := paymentReminderMessage p (bulkReminderType p) }))

/-- Three overdue payments, all bound to LINE addresses. -/
def overduePayment (i : Int) (name line : String) : Payment :=
  { id := i, branch_id := 1, customer_name := name, line_user_id := some line,
    total_due := 5000, due_date := 10, overdue_days := 3,
    payment_status := "overdue", urgency := "overdue" }

/-- The concrete three-payment store of the bulk scenario. -/
def overdueStore3 : List Payment :=
  [overduePayment 1 "甲" "U1", overduePayment 2 "乙" "U2", overduePayment 3 "丙" "U3"]

/-- A gateway that rejects exactly the second payment's address. -/
def failSecondGw : String → String → PushResult := fun addr _ =>
  if addr = "U2" then .fail "LINE API 錯誤: 500" else .ok

/-- C5: in a live bulk reminder run (distinct payment ids), every filtered
candidate with a bound address is dispatched exactly once, one failure never
aborts the batch, `sent_count`/`failed_count` count the accepted/rejected
pushes, and the error list names exactly the failed payments in order; in
particular over three overdue payments whose second dispatch fails the run
reports `sent_count = 2`, `failed_count = 1`, and the single error entry
carries the second payment's id. -/
theorem bulk_live_isolates_failures :
    (∀ store gw (branch_id : Option Int) (urgency : String),
      (store.map (fun p => p.id)).Nodup →
      send_bulk_payment_reminders store gw branch_id urgency false =
        liveBulkSpec store gw branch_id urgency) ∧
    ((send_bulk_payment_reminders overdueStore3 failSecondGw none "all" false).1 =
      .live 2 1 (some [{ payment_id := 2, customer := "乙",
                         error := some "LINE API 錯誤: 500" }])) := by
  constructor
  · intro store gw branch_id urgency hnd
    unfold send_bulk_payment_reminders liveBulkSpec
    simp only [Bool.false_eq_true, if_false]
    rw [bulkSendLoop_spec store gw hnd _ ?_]
    · intro p hp
      have h1 := List.mem_filter.mp hp
      exact ⟨(List.mem_filter.mp h1.1).1, h1.2⟩
  · decide

/-- C5 witness: the concrete scenario satisfies the per-item specification. -/
theorem bulk_live_isolates_failures_witness :
    send_bulk_payment_reminders overdueStore3 failSecondGw none "all" false =
      liveBulkSpec overdueStore3 failSecondGw none "all" :=
  bulk_live_isolates_failures.1 overdueStore3 failSecondGw none "all" (by decide)

/-- C9: through the registry, an unknown tool name fails with the 404
unknown-tool error; for a known tool, a handler error is caught and converted
into the uniform failure envelope rather than propagated, and a handler
success is wrapped as the success envelope — so the registry never throws for
business-logic failures, only for unknown-tool lookups. -/
theorem call_tool_envelope (γ δ : Type) (tools : List (String × (γ → Except String δ)))
    (name : String) (params : γ) :
    (tools.lookup name = none →
      call_tool tools name params = .error (404, "Tool " ++ name ++ " not found")) ∧
    (∀ handler, tools.lookup name = some handler →
      (∃ env, call_tool tools name params = .ok env) ∧
      (∀ e, handler params = .error e →
        call_tool tools name params =
          .ok { success := false, tool := name, result := none, error := some e }) ∧
      (∀ v, handler params = .ok v →
        call_tool tools name params =
          .ok { success := true, tool := name, result := some v, error := none })) := by
  constructor
  · intro hl
    simp [call_tool, hl]
  · intro handler hl
    refine ⟨?_, ?_, ?_⟩
    · cases hh : handler params with
      | ok v =>
          exact ⟨{ success := true, tool := name, result := some v, error := none },
            by simp [call_tool, hl, hh]⟩
      | error e =>
          exact ⟨{ success := false, tool := name, result := none, error := some e },
            by simp [call_tool, hl, hh]⟩
    · intro e he
      simp [call_tool, hl, he]
    · intro v hv
      simp [call_tool, hl, hv]

/-- C9 witness: a one-entry catalog wraps its handler's value in the success
envelope. -/
theorem call_tool_envelope_witness :
    call_tool [("ping", fun _ => (.ok 1 : Except String Nat))] "ping" () =
      .ok { success := true, tool := "ping", result := some 1, error := none } :=
  ((call_tool_envelope Unit Nat [("ping", fun _ => .ok 1)] "ping" ()).2
    (fun _ => .ok 1) rfl).2.2 1 rfl
